import Mathlib

/-!
Verification of the rule-evaluation engine of the tax-credit assessment
service (`src/index.tsx`).  The engine is a dispatcher (`assessRule`) over
nineteen rule evaluators plus an aggregation loop in the `/api/assess`
handler (`runAssessment` below).  JavaScript numbers are embedded as exact
rationals (`ℚ`), absent JSON fields as `Option`, and JS truthiness tests
(`!x`, `x || d`) by the explicit helpers `jsFalsy` / `orZero` / `strTruthy`
/ `strOr` / `orFalse`.  The two evaluators that read the wall clock via
`new Date().getFullYear()` receive the ambient year as an explicit
`currentYear` argument.  Decimal string rendering (JS `toFixed`) is
abstracted by `toFixed0` / `toFixed2`; no property below inspects the
numeric content of a reason string.
-/

set_option linter.unusedVariables false
set_option linter.unnecessarySeqFocus false

namespace Tax

/-- JS truthiness test `!x` for a numeric field: true when the field is
absent (`undefined`) or equal to `0`. -/
def jsFalsy (o : Option ℚ) : Bool :=
  match o with
  | none => true
  | some x => decide (x = 0)

/-- JS `x || 0` for a numeric field: the value when present, else `0`.
(A present `0` also yields `0`, as in JS.) -/
def orZero (o : Option ℚ) : ℚ := o.getD 0

/-- JS truthiness for a string field: present and non-empty. -/
def strTruthy (o : Option String) : Bool :=
  match o with
  | none => false
  | some s => decide (s ≠ "")

/-- JS `s || d` for a string field: the value when present and non-empty,
else the default `d`. -/
def strOr (o : Option String) (d : String) : String :=
  match o with
  | none => d
  | some s => if s = "" then d else s

/-- JS `b || false` for a boolean field. -/
def orFalse (o : Option Bool) : Bool := o.getD false

/-- JS `o === lit` for an optional string field: equality with a literal,
false when the field is absent. -/
def eqSome (o : Option String) (lit : String) : Bool :=
  match o with
  | none => false
  | some s => decide (s = lit)

/-- Containment of `needle` in a character list, matching the semantics of
JS `String.prototype.includes`. -/
def listIncl (needle : List Char) : List Char → Bool
  | [] => needle.isEmpty
  | c :: rest => needle.isPrefixOf (c :: rest) || listIncl needle rest

/-- JS `s.includes(needle)`. -/
def strIncludes (s needle : String) : Bool := listIncl needle.data s.data

/-- Abstraction of JS `q.toFixed(0)`: the decimal rendering is collapsed to
the string of the nearest integer. -/
def toFixed0 (q : ℚ) : String := toString (round q)

/-- Abstraction of JS `q.toFixed(2)`: rendered via the nearest integer of
`100 * q`. -/
def toFixed2 (q : ℚ) : String := toString (round (q * 100))

/-- Structured detail values placed in the `details` record of an
assessment result (an embedding of the JSON object values the source
builds). -/
inductive DVal where
  | num : ℚ → DVal
  | str : String → DVal
  | boolVal : Bool → DVal
  | obj : List (String × DVal) → DVal

/-- A catalog entry of `tax_rules.json`: the engine reads only `id` (for
dispatch) and `name` (copied into the result row). -/
structure RuleDef where
  id : ℤ
  name : String
deriving DecidableEq

/-- The company row read from the `companies` table; the evaluators read
only `company_type`, `industry` and `is_capital_area` (1 = capital area). -/
structure Company where
  company_type : String
  industry : String
  is_capital_area : ℤ
deriving DecidableEq

/-- The `employmentData` bundle of the request body. -/
structure EmploymentData where
  total_employees : Option ℚ := none
  employee_increase : Option ℚ := none
  youth_employees : Option ℚ := none
  disabled_employees : Option ℚ := none
  career_break_women : Option ℚ := none
  total_salary : Option ℚ := none
  insurance_paid : Option ℚ := none
deriving DecidableEq

/-- One element of the `investmentData` list. -/
structure InvestmentItem where
  facility_type : Option String := none
  investment_amount : Option ℚ := none
deriving DecidableEq

/-- One element of the `rndData` list. -/
structure RndItem where
  rnd_type : Option String := none
  expense_amount : Option ℚ := none
deriving DecidableEq

/-- The `otherData` bundle of the request body.  The source stores
`startup_date` as a string `"YYYY-..."` and only ever uses
`parseInt(startup_date.split('-')[0])`; the field is embedded as that
parsed leading year. -/
structure OtherData where
  business_income : Option ℚ := none
  calculated_tax : Option ℚ := none
  startup_date : Option ℤ := none
  is_youth_startup : Option Bool := none
  relocation_completed : Option Bool := none
  certification : Option Bool := none
  certification_type : Option String := none
  founder_age : Option ℚ := none
  donation_amount : Option ℚ := none
  donation_type : Option String := none
  vehicle_count : Option ℚ := none
  depreciation_expense : Option ℚ := none
  rental_expense : Option ℚ := none
  fuel_expense : Option ℚ := none
deriving DecidableEq

/-- The `AssessmentContext` interface. -/
structure AssessmentContext where
  company : Company
  employmentData : Option EmploymentData := none
  investmentData : Option (List InvestmentItem) := none
  rndData : Option (List RndItem) := none
  otherData : Option OtherData := none
deriving DecidableEq

/-- The `AssessmentResult` interface. -/
structure AssessmentResult where
  eligible : Bool
  creditAmount : ℚ
  reasons : String
  details : List (String × DVal)

/-- Rule 1, `assessEmploymentIncrease`. -/
def assessEmploymentIncrease (rule : RuleDef) (company : Company)
    (data : Option EmploymentData) : AssessmentResult :=
  let inc := data.bind (fun d => d.employee_increase)
  if jsFalsy inc ∨ orZero inc < 1 then
    { eligible := false, creditAmount := 0,
      reasons := "전년 대비 상시근로자 증가 인원이 없습니다",
      details := [("employee_increase", DVal.num (orZero inc))] }
  else
    let companyType := company.company_type
    let isCapitalArea := decide (company.is_capital_area = 1)
    let increase := orZero inc
    let perPersonCredit : ℚ :=
      if companyType = "중소기업" then
        (if isCapitalArea then 11000000 else 12000000)
      else if companyType = "중견기업" then
        (if isCapitalArea then 9000000 else 10000000)
      else
        (if isCapitalArea then 4500000 else 5000000)
    let totalCredit := perPersonCredit * increase
    { eligible := true, creditAmount := totalCredit,
      reasons := companyType ++ " " ++ toString increase ++ "명 증가, 1인당 "
        ++ toFixed0 (perPersonCredit / 10000) ++ "만원 공제",
      details :=
        [("company_type", DVal.str companyType),
         ("is_capital_area", DVal.boolVal isCapitalArea),
         ("employee_increase", DVal.num increase),
         ("per_person_credit", DVal.num perPersonCredit),
         ("total_credit", DVal.num totalCredit)] }

/-- Rule 2, `assessYouthEmployment`. -/
def assessYouthEmployment (rule : RuleDef) (company : Company)
    (data : Option EmploymentData) : AssessmentResult :=
  let ye := data.bind (fun d => d.youth_employees)
  if jsFalsy ye ∨ orZero ye < 1 then
    { eligible := false, creditAmount := 0,
      reasons := "청년(15-34세) 정규직 근로자 증가가 없습니다", details := [] }
  else
    let companyType := company.company_type
    let youthIncrease := orZero ye
    let additionalCredit : ℚ :=
      if companyType = "중소기업" then 12000000
      else if companyType = "중견기업" then 10000000
      else 5000000
    let totalCredit := additionalCredit * youthIncrease
    { eligible := true, creditAmount := totalCredit,
      reasons := "청년 정규직 " ++ toString youthIncrease ++ "명 증가, 1인당 추가 "
        ++ toFixed0 (additionalCredit / 10000) ++ "만원 공제",
      details :=
        [("company_type", DVal.str companyType),
         ("youth_increase", DVal.num youthIncrease),
         ("additional_credit", DVal.num additionalCredit),
         ("total_credit", DVal.num totalCredit)] }

/-- Rule 3, `assessDisabledEmployment`. -/
def assessDisabledEmployment (rule : RuleDef) (company : Company)
    (data : Option EmploymentData) : AssessmentResult :=
  let de := data.bind (fun d => d.disabled_employees)
  if jsFalsy de ∨ orZero de < 1 then
    { eligible := false, creditAmount := 0,
      reasons := "장애인 근로자 고용 실적이 없습니다", details := [] }
  else
    let disabledCount := orZero de
    let perPersonCredit : ℚ := 9600000
    let totalCredit := perPersonCredit * disabledCount
    { eligible := true, creditAmount := totalCredit,
      reasons := "장애인 근로자 " ++ toString disabledCount ++ "명, 1인당 연 960만원 공제",
      details :=
        [("disabled_count", DVal.num disabledCount),
         ("per_person_credit", DVal.num perPersonCredit),
         ("total_credit", DVal.num totalCredit)] }

/-- Rule 4, `assessCareerBreakWomen`. -/
def assessCareerBreakWomen (rule : RuleDef) (company : Company)
    (data : Option EmploymentData) : AssessmentResult :=
  let cw := data.bind (fun d => d.career_break_women)
  if jsFalsy cw ∨ orZero cw < 1 then
    { eligible := false, creditAmount := 0,
      reasons := "경력단절여성 재고용 실적이 없습니다", details := [] }
  else
    let count := orZero cw
    let perPersonCredit : ℚ := 11000000
    let totalCredit := perPersonCredit * count
    { eligible := true, creditAmount := totalCredit,
      reasons := "경력단절여성 " ++ toString count ++ "명 재고용, 1인당 연 1,100만원 공제 (최대 2년)",
      details :=
        [("count", DVal.num count),
         ("per_person_credit", DVal.num perPersonCredit),
         ("total_credit", DVal.num totalCredit),
         ("max_years", DVal.num 2)] }

/-- Rule 5, `assessSocialInsurance`. -/
def assessSocialInsurance (rule : RuleDef) (company : Company)
    (data : Option EmploymentData) : AssessmentResult :=
  if company.company_type ≠ "중소기업" then
    { eligible := false, creditAmount := 0,
      reasons := "중소기업만 해당됩니다", details := [] }
  else
    let ip := data.bind (fun d => d.insurance_paid)
    if jsFalsy ip ∨ orZero ip < 1 then
      { eligible := false, creditAmount := 0,
        reasons := "사회보험료 납부 실적이 없습니다", details := [] }
    else
      let insurancePaid := orZero ip
      let creditRate : ℚ := 0.25
      let maxPerPerson : ℚ := 1000000
      let rawCredit := insurancePaid * creditRate
      let newEmployees :=
        orZero (data.bind (fun d => d.employee_increase))
          + orZero (data.bind (fun d => d.youth_employees))
      let maxCredit := maxPerPerson * newEmployees
      let totalCredit := if rawCredit > maxCredit then maxCredit else rawCredit
      { eligible := true, creditAmount := totalCredit,
        reasons := "사업주 부담 사회보험료의 25% 공제 (인당 연 100만원 한도)",
        details :=
          [("insurance_paid", DVal.num insurancePaid),
           ("credit_rate", DVal.num creditRate),
           ("new_employees", DVal.num newEmployees),
           ("total_credit", DVal.num totalCredit)] }

/-- Rule 6, `assessSmeSpecialReduction`. -/
def assessSmeSpecialReduction (rule : RuleDef) (company : Company)
    (data : Option OtherData) : AssessmentResult :=
  if company.company_type ≠ "중소기업" then
    { eligible := false, creditAmount := 0,
      reasons := "중소기업만 해당됩니다", details := [] }
  else
    let bi := data.bind (fun d => d.business_income)
    if jsFalsy bi then
      { eligible := false, creditAmount := 0,
        reasons := "사업소득 정보가 없습니다", details := [] }
    else
      let industry := company.industry
      let income := orZero bi
      let ct := data.bind (fun d => d.calculated_tax)
      let tax := if jsFalsy ct then income * 0.10 else orZero ct
      let reductionRate : ℚ :=
        if ["제조업", "광업", "건설업", "도매업", "소매업"].contains industry
        then 0.10 else 0.05
      let totalCredit := tax * reductionRate
      { eligible := true, creditAmount := totalCredit,
        reasons := "중소기업 특별세액감면 " ++ toFixed0 (reductionRate * 100) ++ "% 적용",
        details :=
          [("industry", DVal.str industry),
           ("business_income", DVal.num income),
           ("calculated_tax", DVal.num tax),
           ("reduction_rate", DVal.num reductionRate),
           ("total_credit", DVal.num totalCredit)] }

/-- Rule 7, `assessStartupSmeReduction`.  The source computes
`const currentYear = new Date().getFullYear()`; that wall-clock read is
embedded as the explicit argument `currentYear`. -/
def assessStartupSmeReduction (rule : RuleDef) (company : Company)
    (data : Option OtherData) (currentYear : ℤ) : AssessmentResult :=
  match data.bind (fun d => d.startup_date) with
  | none =>
      { eligible := false, creditAmount := 0,
        reasons := "창업 정보가 없습니다", details := [] }
  | some startupYear =>
      let yearsFromStartup := currentYear - startupYear
      if yearsFromStartup > 5 then
        { eligible := false, creditAmount := 0,
          reasons := "창업 후 5년이 경과했습니다", details := [] }
      else
        let tax := orZero (data.bind (fun d => d.calculated_tax))
        let isYouthStartup := orFalse (data.bind (fun d => d.is_youth_startup))
        let reductionRate : ℚ := if isYouthStartup then 1.0 else 0.5
        let totalCredit := tax * reductionRate
        { eligible := true, creditAmount := totalCredit,
          reasons := (if isYouthStartup then "청년" else "일반") ++ "창업 "
            ++ toFixed0 (reductionRate * 100) ++ "% 감면 ("
            ++ toString (yearsFromStartup + 1) ++ "년차)",
          details :=
            [("startup_year", DVal.num startupYear),
             ("years_from_startup", DVal.num yearsFromStartup),
             ("reduction_rate", DVal.num reductionRate),
             ("total_credit", DVal.num totalCredit)] }

/-- Rule 8, `assessManufacturingRelocation`. -/
def assessManufacturingRelocation (rule : RuleDef) (company : Company)
    (data : Option OtherData) : AssessmentResult :=
  if !orFalse (data.bind (fun d => d.relocation_completed)) then
    { eligible := false, creditAmount := 0,
      reasons := "지방 이전 정보가 없습니다", details := [] }
  else if company.industry ≠ "제조업" then
    { eligible := false, creditAmount := 0,
      reasons := "제조업만 해당됩니다", details := [] }
  else if company.is_capital_area = 1 then
    { eligible := false, creditAmount := 0,
      reasons := "수도권에서 지방으로 이전한 경우만 해당됩니다", details := [] }
  else
    let tax := orZero (data.bind (fun d => d.calculated_tax))
    let totalCredit := tax * 1.0
    { eligible := true, creditAmount := totalCredit,
      reasons := "제조업 지방 이전 100% 감면 (7년간)",
      details := [("total_credit", DVal.num totalCredit)] }

/-- Rule 9, `assessSocialEnterpriseReduction`. -/
def assessSocialEnterpriseReduction (rule : RuleDef) (company : Company)
    (data : Option OtherData) : AssessmentResult :=
  if !orFalse (data.bind (fun d => d.certification)) then
    { eligible := false, creditAmount := 0,
      reasons := "사회적기업 또는 협동조합 인증 정보가 없습니다", details := [] }
  else
    let tax := orZero (data.bind (fun d => d.calculated_tax))
    let certificationType := strOr (data.bind (fun d => d.certification_type)) "협동조합"
    let reductionRate : ℚ := if certificationType = "사회적기업" then 1.0 else 0.5
    let totalCredit := tax * reductionRate
    { eligible := true, creditAmount := totalCredit,
      reasons := certificationType ++ " " ++ toFixed0 (reductionRate * 100) ++ "% 감면",
      details :=
        [("certification_type", DVal.str certificationType),
         ("reduction_rate", DVal.num reductionRate),
         ("total_credit", DVal.num totalCredit)] }

/-- Rule 10, `assessYouthStartupReduction`.  Reads the wall clock exactly as
rule 7 does; embedded as the `currentYear` argument. -/
def assessYouthStartupReduction (rule : RuleDef) (company : Company)
    (data : Option OtherData) (currentYear : ℤ) : AssessmentResult :=
  let fa := data.bind (fun d => d.founder_age)
  if jsFalsy fa ∨ orZero fa > 34 then
    { eligible := false, creditAmount := 0,
      reasons := "창업자가 34세 이하가 아닙니다", details := [] }
  else
    match data.bind (fun d => d.startup_date) with
    | none =>
        { eligible := false, creditAmount := 0,
          reasons := "창업 정보가 없습니다", details := [] }
    | some startupYear =>
        let yearsFromStartup := currentYear - startupYear
        if yearsFromStartup > 5 then
          { eligible := false, creditAmount := 0,
            reasons := "창업 후 5년이 경과했습니다", details := [] }
        else
          let tax := orZero (data.bind (fun d => d.calculated_tax))
          let maxAmount : ℚ := 200000000
          let rawCredit := tax * 1.0
          let totalCredit := if rawCredit > maxAmount then maxAmount else rawCredit
          { eligible := true, creditAmount := totalCredit,
            reasons := "청년창업 100% 감면 (연 2억원 한도, "
              ++ toString (yearsFromStartup + 1) ++ "년차)",
            details :=
              [("founder_age", DVal.num (orZero fa)),
               ("years_from_startup", DVal.num yearsFromStartup),
               ("total_credit", DVal.num totalCredit)] }

/-- Rule 11, `assessProductivityFacilities`. -/
def assessProductivityFacilities (rule : RuleDef) (company : Company)
    (data : Option (List InvestmentItem)) : AssessmentResult :=
  match data with
  | none =>
      { eligible := false, creditAmount := 0,
        reasons := "생산성향상시설 투자 실적이 없습니다", details := [] }
  | some l =>
      if l.length = 0 then
        { eligible := false, creditAmount := 0,
          reasons := "생산성향상시설 투자 실적이 없습니다", details := [] }
      else
        let relevantInvestments := l.filter (fun inv =>
          strTruthy inv.facility_type &&
            ["자동화설비", "정보시스템", "계측장비"].contains (inv.facility_type.getD ""))
        if relevantInvestments.length = 0 then
          { eligible := false, creditAmount := 0,
            reasons := "해당 시설 투자가 없습니다", details := [] }
        else
          let totalInvestment :=
            relevantInvestments.foldl (fun sum inv => sum + orZero inv.investment_amount) 0
          if totalInvestment < 10000000 then
            { eligible := false, creditAmount := 0,
              reasons := "투자금액이 1천만원 미만입니다", details := [] }
          else
            let companyType := company.company_type
            let creditRate : ℚ :=
              if companyType = "중소기업" then 0.10
              else if companyType = "중견기업" then 0.05
              else 0.03
            let totalCredit := totalInvestment * creditRate
            { eligible := true, creditAmount := totalCredit,
              reasons := "생산성향상시설 투자 " ++ toFixed2 (totalInvestment / 100000000)
                ++ "억원, " ++ toFixed0 (creditRate * 100) ++ "% 공제",
              details :=
                [("total_investment", DVal.num totalInvestment),
                 ("credit_rate", DVal.num creditRate),
                 ("total_credit", DVal.num totalCredit)] }

/-- Rule 12, `assessEnergyEnvironmentFacilities`. -/
def assessEnergyEnvironmentFacilities (rule : RuleDef) (company : Company)
    (data : Option (List InvestmentItem)) : AssessmentResult :=
  match data with
  | none =>
      { eligible := false, creditAmount := 0,
        reasons := "에너지절약·환경개선시설 투자 실적이 없습니다", details := [] }
  | some l =>
      if l.length = 0 then
        { eligible := false, creditAmount := 0,
          reasons := "에너지절약·환경개선시설 투자 실적이 없습니다", details := [] }
      else
        let relevantInvestments := l.filter (fun inv =>
          strTruthy inv.facility_type &&
            ["에너지절약시설", "온실가스감축시설", "환경보전시설"].contains
              (inv.facility_type.getD ""))
        if relevantInvestments.length = 0 then
          { eligible := false, creditAmount := 0,
            reasons := "해당 시설 투자가 없습니다", details := [] }
        else
          let totalInvestment :=
            relevantInvestments.foldl (fun sum inv => sum + orZero inv.investment_amount) 0
          if totalInvestment < 10000000 then
            { eligible := false, creditAmount := 0,
              reasons := "투자금액이 1천만원 미만입니다", details := [] }
          else
            let companyType := company.company_type
            let creditRate : ℚ :=
              if companyType = "중소기업" then 0.10
              else if companyType = "중견기업" then 0.05
              else 0.03
            let totalCredit := totalInvestment * creditRate
            { eligible := true, creditAmount := totalCredit,
              reasons := "에너지·환경시설 투자 " ++ toFixed2 (totalInvestment / 100000000)
                ++ "억원, " ++ toFixed0 (creditRate * 100) ++ "% 공제",
              details :=
                [("total_investment", DVal.num totalInvestment),
                 ("credit_rate", DVal.num creditRate),
                 ("total_credit", DVal.num totalCredit)] }

/-- Rule 13, `assessSafetyFacilities`. -/
def assessSafetyFacilities (rule : RuleDef) (company : Company)
    (data : Option (List InvestmentItem)) : AssessmentResult :=
  match data with
  | none =>
      { eligible := false, creditAmount := 0,
        reasons := "안전시설 투자 실적이 없습니다", details := [] }
  | some l =>
      if l.length = 0 then
        { eligible := false, creditAmount := 0,
          reasons := "안전시설 투자 실적이 없습니다", details := [] }
      else
        let relevantInvestments := l.filter (fun inv =>
          strTruthy inv.facility_type &&
            ["화재예방설비", "안전보호장구", "작업환경개선설비"].contains
              (inv.facility_type.getD ""))
        if relevantInvestments.length = 0 then
          { eligible := false, creditAmount := 0,
            reasons := "해당 시설 투자가 없습니다", details := [] }
        else
          let totalInvestment :=
            relevantInvestments.foldl (fun sum inv => sum + orZero inv.investment_amount) 0
          if totalInvestment < 10000000 then
            { eligible := false, creditAmount := 0,
              reasons := "투자금액이 1천만원 미만입니다", details := [] }
          else
            let companyType := company.company_type
            let creditRate : ℚ :=
              if companyType = "중소기업" then 0.10
              else if companyType = "중견기업" then 0.07
              else 0.03
            let totalCredit := totalInvestment * creditRate
            { eligible := true, creditAmount := totalCredit,
              reasons := "안전시설 투자 " ++ toFixed2 (totalInvestment / 100000000)
                ++ "억원, " ++ toFixed0 (creditRate * 100) ++ "% 공제",
              details :=
                [("total_investment", DVal.num totalInvestment),
                 ("credit_rate", DVal.num creditRate),
                 ("total_credit", DVal.num totalCredit)] }

/-- Rule 14, `assessSmartFactory`. -/
def assessSmartFactory (rule : RuleDef) (company : Company)
    (data : Option (List InvestmentItem)) : AssessmentResult :=
  match data with
  | none =>
      { eligible := false, creditAmount := 0,
        reasons := "스마트공장 설비 투자 실적이 없습니다", details := [] }
  | some l =>
      if l.length = 0 then
        { eligible := false, creditAmount := 0,
          reasons := "스마트공장 설비 투자 실적이 없습니다", details := [] }
      else
        let relevantInvestments := l.filter (fun inv =>
          strTruthy inv.facility_type &&
            strIncludes (inv.facility_type.getD "") "스마트공장")
        if relevantInvestments.length = 0 then
          { eligible := false, creditAmount := 0,
            reasons := "스마트공장 설비 투자가 없습니다", details := [] }
        else
          let totalInvestment :=
            relevantInvestments.foldl (fun sum inv => sum + orZero inv.investment_amount) 0
          if totalInvestment < 100000000 then
            { eligible := false, creditAmount := 0,
              reasons := "투자금액이 1억원 미만입니다", details := [] }
          else
            let companyType := company.company_type
            let creditRate : ℚ :=
              if companyType = "중소기업" then 0.15
              else if companyType = "중견기업" then 0.10
              else 0.05
            let totalCredit := totalInvestment * creditRate
            { eligible := true, creditAmount := totalCredit,
              reasons := "스마트공장 설비 투자 " ++ toFixed2 (totalInvestment / 100000000)
                ++ "억원, " ++ toFixed0 (creditRate * 100) ++ "% 공제",
              details :=
                [("total_investment", DVal.num totalInvestment),
                 ("credit_rate", DVal.num creditRate),
                 ("total_credit", DVal.num totalCredit)] }

/-- The per-item credit rate of rule 15: the loop body's `creditRate`
computation, initialised to `0.05` and refined by R&D type and company
size exactly as in the source. -/
def rndCreditRate (rndType : Option String) (companyType : String) : ℚ :=
  if eqSome rndType "일반연구개발비" then
    (if companyType = "중소기업" then 0.25
     else if companyType = "중견기업" then 0.15
     else 0.05)
  else if eqSome rndType "신성장동력연구개발비" then
    (if companyType = "중소기업" then 0.30
     else if companyType = "중견기업" then 0.20
     else 0.10)
  else 0.05

/-- Rule 15, `assessRndExpense`. -/
def assessRndExpense (rule : RuleDef) (company : Company)
    (data : Option (List RndItem)) : AssessmentResult :=
  match data with
  | none =>
      { eligible := false, creditAmount := 0,
        reasons := "연구개발비 지출 실적이 없습니다", details := [] }
  | some l =>
      if l.length = 0 then
        { eligible := false, creditAmount := 0,
          reasons := "연구개발비 지출 실적이 없습니다", details := [] }
      else
        let relevantRnd := l.filter (fun rnd =>
          strTruthy rnd.rnd_type &&
            ["일반연구개발비", "신성장동력연구개발비"].contains (rnd.rnd_type.getD ""))
        if relevantRnd.length = 0 then
          { eligible := false, creditAmount := 0,
            reasons := "해당 연구개발비가 없습니다", details := [] }
        else
          let companyType := company.company_type
          let totalCredit := relevantRnd.foldl
            (fun acc rnd =>
              acc + orZero rnd.expense_amount * rndCreditRate rnd.rnd_type companyType) 0
          { eligible := true, creditAmount := totalCredit,
            reasons := "연구개발비 세액공제 적용",
            details := [("total_credit", DVal.num totalCredit)] }

/-- Rule 16, `assessDesignExpense`. -/
def assessDesignExpense (rule : RuleDef) (company : Company)
    (data : Option (List RndItem)) : AssessmentResult :=
  match data with
  | none =>
      { eligible := false, creditAmount := 0,
        reasons := "디자인 개발비 지출 실적이 없습니다", details := [] }
  | some l =>
      if l.length = 0 then
        { eligible := false, creditAmount := 0,
          reasons := "디자인 개발비 지출 실적이 없습니다", details := [] }
      else
        let relevantRnd := l.filter (fun rnd => eqSome rnd.rnd_type "디자인개발비")
        if relevantRnd.length = 0 then
          { eligible := false, creditAmount := 0,
            reasons := "디자인 개발비가 없습니다", details := [] }
        else
          let totalExpense :=
            relevantRnd.foldl (fun sum rnd => sum + orZero rnd.expense_amount) 0
          if totalExpense < 1000000 then
            { eligible := false, creditAmount := 0,
              reasons := "개발비가 100만원 미만입니다", details := [] }
          else
            let companyType := company.company_type
            let creditRate : ℚ :=
              if companyType = "중소기업" then 0.25
              else if companyType = "중견기업" then 0.15
              else 0.05
            let totalCredit := totalExpense * creditRate
            { eligible := true, creditAmount := totalCredit,
              reasons := "디자인 개발비 " ++ toFixed0 (totalExpense / 10000)
                ++ "만원, " ++ toFixed0 (creditRate * 100) ++ "% 공제",
              details :=
                [("total_expense", DVal.num totalExpense),
                 ("credit_rate", DVal.num creditRate),
                 ("total_credit", DVal.num totalCredit)] }

/-- Rule 17, `assessNewTechnologyExpense`. -/
def assessNewTechnologyExpense (rule : RuleDef) (company : Company)
    (data : Option (List RndItem)) : AssessmentResult :=
  match data with
  | none =>
      { eligible := false, creditAmount := 0,
        reasons := "신기술 개발비 지출 실적이 없습니다", details := [] }
  | some l =>
      if l.length = 0 then
        { eligible := false, creditAmount := 0,
          reasons := "신기술 개발비 지출 실적이 없습니다", details := [] }
      else
        let relevantRnd := l.filter (fun rnd => eqSome rnd.rnd_type "신기술개발비")
        if relevantRnd.length = 0 then
          { eligible := false, creditAmount := 0,
            reasons := "신기술 개발비가 없습니다", details := [] }
        else
          let totalExpense :=
            relevantRnd.foldl (fun sum rnd => sum + orZero rnd.expense_amount) 0
          if totalExpense < 1000000 then
            { eligible := false, creditAmount := 0,
              reasons := "개발비가 100만원 미만입니다", details := [] }
          else
            let companyType := company.company_type
            let creditRate : ℚ :=
              if companyType = "중소기업" then 0.30
              else if companyType = "중견기업" then 0.20
              else 0.10
            let totalCredit := totalExpense * creditRate
            { eligible := true, creditAmount := totalCredit,
              reasons := "데이터·AI·IoT 개발비 " ++ toFixed0 (totalExpense / 10000)
                ++ "만원, " ++ toFixed0 (creditRate * 100) ++ "% 공제",
              details :=
                [("total_expense", DVal.num totalExpense),
                 ("credit_rate", DVal.num creditRate),
                 ("total_credit", DVal.num totalCredit)] }

/-- Rule 18, `assessDonation`. -/
def assessDonation (rule : RuleDef) (company : Company)
    (data : Option OtherData) : AssessmentResult :=
  let da := data.bind (fun d => d.donation_amount)
  if jsFalsy da then
    { eligible := false, creditAmount := 0,
      reasons := "기부금 지출 실적이 없습니다", details := [] }
  else
    let donationAmount := orZero da
    let donationType := strOr (data.bind (fun d => d.donation_type)) "지정기부금"
    let income := orZero (data.bind (fun d => d.business_income))
    let creditRate : ℚ := 0.15
    let limitRate : ℚ := if donationType = "법정기부금" then 1.0 else 0.30
    let limit := income * limitRate
    let eligibleAmount := min donationAmount limit
    let totalCredit := eligibleAmount * creditRate
    { eligible := true, creditAmount := totalCredit,
      reasons := donationType ++ " " ++ toFixed0 (eligibleAmount / 10000) ++ "만원, 15% 공제",
      details :=
        [("donation_type", DVal.str donationType),
         ("donation_amount", DVal.num donationAmount),
         ("eligible_amount", DVal.num eligibleAmount),
         ("total_credit", DVal.num totalCredit)] }

/-- Rule 19, `assessBusinessVehicle`: a deduction-ceiling validation, not a
credit; `creditAmount` is hardcoded to 0 in its eligible branch. -/
def assessBusinessVehicle (rule : RuleDef) (company : Company)
    (data : Option OtherData) : AssessmentResult :=
  let vc := data.bind (fun d => d.vehicle_count)
  if jsFalsy vc ∨ orZero vc < 1 then
    { eligible := false, creditAmount := 0,
      reasons := "업무용 차량이 없습니다", details := [] }
  else
    let vehicleCount := orZero vc
    let depreciation := orZero (data.bind (fun d => d.depreciation_expense))
    let rental := orZero (data.bind (fun d => d.rental_expense))
    let fuel := orZero (data.bind (fun d => d.fuel_expense))
    let depreciationLimit := 8000000 * vehicleCount
    let rentalLimit := 12000000 * vehicleCount
    let eligibleDepreciation := min depreciation depreciationLimit
    let eligibleRental := min rental rentalLimit
    let eligibleFuel := fuel
    let totalEligible := eligibleDepreciation + eligibleRental + eligibleFuel
    let totalExpense := depreciation + rental + fuel
    let limitExceeded := totalExpense - totalEligible
    { eligible := true, creditAmount := 0,
      reasons := "업무용 차량 " ++ toString vehicleCount ++ "대, 손금인정액 "
        ++ toFixed0 (totalEligible / 10000) ++ "만원",
      details :=
        [("vehicle_count", DVal.num vehicleCount),
         ("depreciation", DVal.obj
            [("expense", DVal.num depreciation),
             ("limit", DVal.num depreciationLimit),
             ("eligible", DVal.num eligibleDepreciation)]),
         ("rental", DVal.obj
            [("expense", DVal.num rental),
             ("limit", DVal.num rentalLimit),
             ("eligible", DVal.num eligibleRental)]),
         ("fuel", DVal.obj
            [("expense", DVal.num fuel),
             ("eligible", DVal.num eligibleFuel)]),
         ("total_eligible", DVal.num totalEligible),
         ("limit_exceeded", DVal.num limitExceeded)] }

/-- The dispatcher `assessRule`: a closed switch on `rule.id` over 1–19 with
the generic unimplemented default.  `currentYear` threads the wall-clock
year read by rules 7 and 10. -/
def assessRule (rule : RuleDef) (context : AssessmentContext)
    (currentYear : ℤ) : AssessmentResult :=
  match rule.id with
  | 1 => assessEmploymentIncrease rule context.company context.employmentData
  | 2 => assessYouthEmployment rule context.company context.employmentData
  | 3 => assessDisabledEmployment rule context.company context.employmentData
  | 4 => assessCareerBreakWomen rule context.company context.employmentData
  | 5 => assessSocialInsurance rule context.company context.employmentData
  | 6 => assessSmeSpecialReduction rule context.company context.otherData
  | 7 => assessStartupSmeReduction rule context.company context.otherData currentYear
  | 8 => assessManufacturingRelocation rule context.company context.otherData
  | 9 => assessSocialEnterpriseReduction rule context.company context.otherData
  | 10 => assessYouthStartupReduction rule context.company context.otherData currentYear
  | 11 => assessProductivityFacilities rule context.company context.investmentData
  | 12 => assessEnergyEnvironmentFacilities rule context.company context.investmentData
  | 13 => assessSafetyFacilities rule context.company context.investmentData
  | 14 => assessSmartFactory rule context.company context.investmentData
  | 15 => assessRndExpense rule context.company context.rndData
  | 16 => assessDesignExpense rule context.company context.rndData
  | 17 => assessNewTechnologyExpense rule context.company context.rndData
  | 18 => assessDonation rule context.company context.otherData
  | 19 => assessBusinessVehicle rule context.company context.otherData
  | _ =>
      { eligible := false, creditAmount := 0,
        reasons := "미구현 규칙", details := [] }

/-- One row of the `results` array built by the `/api/assess` handler
(`details_json` holds the detail record whose `JSON.stringify` rendering is
abstracted away). -/
structure ResultRow where
  credit_rule_id : ℤ
  credit_rule_name : String
  is_eligible : ℤ
  credit_amount : ℚ
  reasons : String
  details_json : List (String × DVal)

/-- The aggregate state of one `/api/assess` run: the pushed rows and the
two accumulators. -/
structure RunOutcome where
  results : List ResultRow
  totalCreditAmount : ℚ
  eligibleCount : ℕ

/-- The row pushed for one rule. -/
def toRow (rule : RuleDef) (assessment : AssessmentResult) : ResultRow :=
  { credit_rule_id := rule.id,
    credit_rule_name := rule.name,
    is_eligible := if assessment.eligible then 1 else 0,
    credit_amount := assessment.creditAmount,
    reasons := assessment.reasons,
    details_json := assessment.details }

/-- The body of the `for (const [key, rule] of Object.entries(taxRules))`
loop: run the dispatcher, push a row, and when the assessment is eligible
add its credit to `totalCreditAmount` and bump `eligibleCount`. -/
def runStep (ctx : AssessmentContext) (currentYear : ℤ)
    (acc : RunOutcome) (rule : RuleDef) : RunOutcome :=
  let assessment := assessRule rule ctx currentYear
  if assessment.eligible then
    { results := acc.results ++ [toRow rule assessment],
      totalCreditAmount := acc.totalCreditAmount + assessment.creditAmount,
      eligibleCount := acc.eligibleCount + 1 }
  else
    { results := acc.results ++ [toRow rule assessment],
      totalCreditAmount := acc.totalCreditAmount,
      eligibleCount := acc.eligibleCount }

/-- The aggregation loop of the `/api/assess` handler: iterate the catalog
in order with no early termination, starting from empty results and zero
accumulators. -/
def runAssessment (catalog : List RuleDef) (ctx : AssessmentContext)
    (currentYear : ℤ) : RunOutcome :=
  catalog.foldl (runStep ctx currentYear)
    { results := [], totalCreditAmount := 0, eligibleCount := 0 }

/-- Modelled from the spec: the catalog file `tax_rules.json` is imported by
the source but is not part of the source tree.  Per the spec it is a fixed
table of 19 entries with ids 1–19, iterated in catalog order by the
`/api/assess` handler; the display names are taken from the dispatcher's
per-case source comments. -/
def taxRules : List RuleDef :=
  [⟨1, "고용증대 세액공제"⟩,
   ⟨2, "청년 정규직 고용 추가 공제"⟩,
   ⟨3, "장애인 고용 세액공제"⟩,
   ⟨4, "경력단절여성 재고용 세액공제"⟩,
   ⟨5, "사회보험료 세액공제"⟩,
   ⟨6, "중소기업 특별세액감면"⟩,
   ⟨7, "창업중소기업 세액감면"⟩,
   ⟨8, "제조업 지방 이전 세액감면"⟩,
   ⟨9, "사회적기업 및 협동조합 세액감면"⟩,
   ⟨10, "청년창업 세액감면"⟩,
   ⟨11, "생산성향상시설 투자 세액공제"⟩,
   ⟨12, "에너지절약·환경개선시설 투자 세액공제"⟩,
   ⟨13, "안전시설 투자 세액공제"⟩,
   ⟨14, "스마트공장 자동화설비 투자 세액공제"⟩,
   ⟨15, "연구인력개발비 세액공제"⟩,
   ⟨16, "디자인 개발비 세액공제"⟩,
   ⟨17, "데이터·AI·IoT 기술 개발비 공제"⟩,
   ⟨18, "기부금 세액공제"⟩,
   ⟨19, "업무용 차량 비용 한도 검증"⟩]

/-- The filtered investment total computed by the facility evaluators for a
given whitelist of facility-category tags (the `relevantInvestments` /
`totalInvestment` sub-computation of rules 11–13). -/
def investmentSum (tags : List String) (data : Option (List InvestmentItem)) : ℚ :=
  ((data.getD []).filter (fun inv =>
      strTruthy inv.facility_type && tags.contains (inv.facility_type.getD ""))).foldl
    (fun sum inv => sum + orZero inv.investment_amount) 0

/-- The filtered investment total of rule 14 (substring match on the
smart-factory tag). -/
def smartFactorySum (data : Option (List InvestmentItem)) : ℚ :=
  ((data.getD []).filter (fun inv =>
      strTruthy inv.facility_type && strIncludes (inv.facility_type.getD "") "스마트공장")).foldl
    (fun sum inv => sum + orZero inv.investment_amount) 0

/-- The filtered expense total of the single-tag R&D evaluators (rules 16
and 17). -/
def rndTypeSum (t : String) (data : Option (List RndItem)) : ℚ :=
  ((data.getD []).filter (fun rnd => eqSome rnd.rnd_type t)).foldl
    (fun sum rnd => sum + orZero rnd.expense_amount) 0

/-- The filter predicate of rule 15 (`relevantRnd`). -/
def rnd15Relevant (rnd : RndItem) : Bool :=
  strTruthy rnd.rnd_type &&
    ["일반연구개발비", "신성장동력연구개발비"].contains (rnd.rnd_type.getD "")

/-- Concrete fixture: a small-medium manufacturing company in the capital
area. -/
def smeMfg : Company :=
  { company_type := "중소기업", industry := "제조업", is_capital_area := 1 }

/-- Concrete fixture: a large service-industry company. -/
def largeSvc : Company :=
  { company_type := "대기업", industry := "서비스업", is_capital_area := 1 }

/-- Concrete fixture: a context with no data bundles at all. -/
def emptyCtx : AssessmentContext := { company := smeMfg }

/-- Concrete fixture: a context whose only data is a 2024 startup date. -/
def startupCtx : AssessmentContext :=
  { company := smeMfg, otherData := some { startup_date := some 2024 } }

/-- Non-negativity of an optional numeric field (vacuously true when
absent). -/
def optNonNeg (o : Option ℚ) : Bool :=
  match o with
  | none => true
  | some x => decide (0 ≤ x)

/-- All numeric fields of an employment bundle are non-negative. -/
def empNonNeg (d : EmploymentData) : Bool :=
  optNonNeg d.total_employees && optNonNeg d.employee_increase
    && optNonNeg d.youth_employees && optNonNeg d.disabled_employees
    && optNonNeg d.career_break_women && optNonNeg d.total_salary
    && optNonNeg d.insurance_paid

/-- The amount of an investment item is non-negative. -/
def invNonNeg (i : InvestmentItem) : Bool := optNonNeg i.investment_amount

/-- The expense of an R&D item is non-negative. -/
def rndNonNeg (i : RndItem) : Bool := optNonNeg i.expense_amount

/-- All numeric fields of an other-data bundle are non-negative. -/
def otherNonNeg (d : OtherData) : Bool :=
  optNonNeg d.business_income && optNonNeg d.calculated_tax
    && optNonNeg d.founder_age && optNonNeg d.donation_amount
    && optNonNeg d.vehicle_count && optNonNeg d.depreciation_expense
    && optNonNeg d.rental_expense && optNonNeg d.fuel_expense

/-- Every numeric input of the evaluation context is non-negative. -/
def ctxNonNeg (ctx : AssessmentContext) : Bool :=
  (match ctx.employmentData with | none => true | some d => empNonNeg d)
    && (ctx.investmentData.getD []).all invNonNeg
    && (ctx.rndData.getD []).all rndNonNeg
    && (match ctx.otherData with | none => true | some d => otherNonNeg d)

lemma ineligible_zero_employmentIncrease (r : RuleDef) (c : Company)
    (d : Option EmploymentData) :
    (assessEmploymentIncrease r c d).eligible = false →
    (assessEmploymentIncrease r c d).creditAmount = 0 := by
  simp only [assessEmploymentIncrease]
  split <;> simp

lemma ineligible_zero_youthEmployment (r : RuleDef) (c : Company)
    (d : Option EmploymentData) :
    (assessYouthEmployment r c d).eligible = false →
    (assessYouthEmployment r c d).creditAmount = 0 := by
  simp only [assessYouthEmployment]
  split <;> simp

lemma ineligible_zero_disabledEmployment (r : RuleDef) (c : Company)
    (d : Option EmploymentData) :
    (assessDisabledEmployment r c d).eligible = false →
    (assessDisabledEmployment r c d).creditAmount = 0 := by
  simp only [assessDisabledEmployment]
  split <;> simp

lemma ineligible_zero_careerBreakWomen (r : RuleDef) (c : Company)
    (d : Option EmploymentData) :
    (assessCareerBreakWomen r c d).eligible = false →
    (assessCareerBreakWomen r c d).creditAmount = 0 := by
  simp only [assessCareerBreakWomen]
  split <;> simp

lemma ineligible_zero_socialInsurance (r : RuleDef) (c : Company)
    (d : Option EmploymentData) :
    (assessSocialInsurance r c d).eligible = false →
    (assessSocialInsurance r c d).creditAmount = 0 := by
  simp only [assessSocialInsurance]
  split <;> [skip; split] <;> simp

lemma ineligible_zero_smeSpecialReduction (r : RuleDef) (c : Company)
    (d : Option OtherData) :
    (assessSmeSpecialReduction r c d).eligible = false →
    (assessSmeSpecialReduction r c d).creditAmount = 0 := by
  simp only [assessSmeSpecialReduction]
  split <;> [skip; split] <;> simp

lemma ineligible_zero_startupSmeReduction (r : RuleDef) (c : Company)
    (d : Option OtherData) (y : ℤ) :
    (assessStartupSmeReduction r c d y).eligible = false →
    (assessStartupSmeReduction r c d y).creditAmount = 0 := by
  simp only [assessStartupSmeReduction]
  split <;> [simp; split <;> simp]

lemma ineligible_zero_manufacturingRelocation (r : RuleDef) (c : Company)
    (d : Option OtherData) :
    (assessManufacturingRelocation r c d).eligible = false →
    (assessManufacturingRelocation r c d).creditAmount = 0 := by
  simp only [assessManufacturingRelocation]
  split <;> [simp; split <;> [simp; split <;> simp]]

lemma ineligible_zero_socialEnterpriseReduction (r : RuleDef) (c : Company)
    (d : Option OtherData) :
    (assessSocialEnterpriseReduction r c d).eligible = false →
    (assessSocialEnterpriseReduction r c d).creditAmount = 0 := by
  simp only [assessSocialEnterpriseReduction]
  split <;> simp

lemma ineligible_zero_youthStartupReduction (r : RuleDef) (c : Company)
    (d : Option OtherData) (y : ℤ) :
    (assessYouthStartupReduction r c d y).eligible = false →
    (assessYouthStartupReduction r c d y).creditAmount = 0 := by
  simp only [assessYouthStartupReduction]
  split <;> [simp; split <;> [simp; split <;> simp]]

lemma ineligible_zero_productivityFacilities (r : RuleDef) (c : Company)
    (d : Option (List InvestmentItem)) :
    (assessProductivityFacilities r c d).eligible = false →
    (assessProductivityFacilities r c d).creditAmount = 0 := by
  simp only [assessProductivityFacilities]
  split <;> [simp; split <;> [simp; split <;> [simp; split <;> simp]]]

lemma ineligible_zero_energyEnvironmentFacilities (r : RuleDef) (c : Company)
    (d : Option (List InvestmentItem)) :
    (assessEnergyEnvironmentFacilities r c d).eligible = false →
    (assessEnergyEnvironmentFacilities r c d).creditAmount = 0 := by
  simp only [assessEnergyEnvironmentFacilities]
  split <;> [simp; split <;> [simp; split <;> [simp; split <;> simp]]]

lemma ineligible_zero_safetyFacilities (r : RuleDef) (c : Company)
    (d : Option (List InvestmentItem)) :
    (assessSafetyFacilities r c d).eligible = false →
    (assessSafetyFacilities r c d).creditAmount = 0 := by
  simp only [assessSafetyFacilities]
  split <;> [simp; split <;> [simp; split <;> [simp; split <;> simp]]]

lemma ineligible_zero_smartFactory (r : RuleDef) (c : Company)
    (d : Option (List InvestmentItem)) :
    (assessSmartFactory r c d).eligible = false →
    (assessSmartFactory r c d).creditAmount = 0 := by
  simp only [assessSmartFactory]
  split <;> [simp; split <;> [simp; split <;> [simp; split <;> simp]]]

lemma ineligible_zero_rndExpense (r : RuleDef) (c : Company)
    (d : Option (List RndItem)) :
    (assessRndExpense r c d).eligible = false →
    (assessRndExpense r c d).creditAmount = 0 := by
  simp only [assessRndExpense]
  split <;> [simp; split <;> [simp; split <;> simp]]

lemma ineligible_zero_designExpense (r : RuleDef) (c : Company)
    (d : Option (List RndItem)) :
    (assessDesignExpense r c d).eligible = false →
    (assessDesignExpense r c d).creditAmount = 0 := by
  simp only [assessDesignExpense]
  split <;> [simp; split <;> [simp; split <;> [simp; split <;> simp]]]

lemma ineligible_zero_newTechnologyExpense (r : RuleDef) (c : Company)
    (d : Option (List RndItem)) :
    (assessNewTechnologyExpense r c d).eligible = false →
    (assessNewTechnologyExpense r c d).creditAmount = 0 := by
  simp only [assessNewTechnologyExpense]
  split <;> [simp; split <;> [simp; split <;> [simp; split <;> simp]]]

lemma ineligible_zero_donation (r : RuleDef) (c : Company)
    (d : Option OtherData) :
    (assessDonation r c d).eligible = false →
    (assessDonation r c d).creditAmount = 0 := by
  simp only [assessDonation]
  split <;> simp

/-- Rule 19 reports zero credit in both of its branches. -/
lemma businessVehicle_credit_zero (r : RuleDef) (c : Company)
    (d : Option OtherData) :
    (assessBusinessVehicle r c d).creditAmount = 0 := by
  simp only [assessBusinessVehicle]
  split <;> simp

/-- C1: for every rule definition and evaluation context, an ineligible
outcome carries creditAmount = 0, and rule 19 (business-vehicle limit
check) carries creditAmount = 0 in every outcome, eligible or not. -/
theorem c1_ineligible_credit_zero (rule : RuleDef) (ctx : AssessmentContext)
    (currentYear : ℤ) :
    ((assessRule rule ctx currentYear).eligible = false →
      (assessRule rule ctx currentYear).creditAmount = 0)
    ∧ (rule.id = 19 → (assessRule rule ctx currentYear).creditAmount = 0) := by
  constructor
  · simp only [assessRule]
    split
    · exact ineligible_zero_employmentIncrease _ _ _
    · exact ineligible_zero_youthEmployment _ _ _
    · exact ineligible_zero_disabledEmployment _ _ _
    · exact ineligible_zero_careerBreakWomen _ _ _
    · exact ineligible_zero_socialInsurance _ _ _
    · exact ineligible_zero_smeSpecialReduction _ _ _
    · exact ineligible_zero_startupSmeReduction _ _ _ _
    · exact ineligible_zero_manufacturingRelocation _ _ _
    · exact ineligible_zero_socialEnterpriseReduction _ _ _
    · exact ineligible_zero_youthStartupReduction _ _ _ _
    · exact ineligible_zero_productivityFacilities _ _ _
    · exact ineligible_zero_energyEnvironmentFacilities _ _ _
    · exact ineligible_zero_safetyFacilities _ _ _
    · exact ineligible_zero_smartFactory _ _ _
    · exact ineligible_zero_rndExpense _ _ _
    · exact ineligible_zero_designExpense _ _ _
    · exact ineligible_zero_newTechnologyExpense _ _ _
    · exact ineligible_zero_donation _ _ _
    · intro _; exact businessVehicle_credit_zero ..
    · intro _; rfl
  · intro h19
    simp only [assessRule, h19]
    exact businessVehicle_credit_zero ..

/-- C1 witness: at rule 1 on the empty context the outcome is ineligible
with zero credit, and at rule 19 the credit is zero. -/
theorem c1_witness :
    (assessRule ⟨1, "고용증대 세액공제"⟩ emptyCtx 2026).creditAmount = 0
    ∧ (assessRule ⟨19, "업무용 차량 비용 한도 검증"⟩ emptyCtx 2026).creditAmount = 0 :=
  ⟨(c1_ineligible_credit_zero ⟨1, "고용증대 세액공제"⟩ emptyCtx 2026).1 (by rfl),
   (c1_ineligible_credit_zero ⟨19, "업무용 차량 비용 한도 검증"⟩ emptyCtx 2026).2 rfl⟩

/-- C3: the dispatcher maps any rule id outside 1–19 to the fixed
unimplemented outcome (eligible = false, creditAmount = 0, the fixed
reason string, empty details); in the embedding every dispatch path is a
total function, so no path raises. -/
theorem c3_unimplemented_default (rule : RuleDef) (ctx : AssessmentContext)
    (currentYear : ℤ) (h : rule.id < 1 ∨ 19 < rule.id) :
    assessRule rule ctx currentYear =
      { eligible := false, creditAmount := 0, reasons := "미구현 규칙",
        details := [] } := by
  simp only [assessRule]
  split <;> first | rfl | omega

/-- C3 witness: rule id 20 on the empty context yields the unimplemented
outcome. -/
theorem c3_witness :
    assessRule ⟨20, "?"⟩ emptyCtx 2026 =
      { eligible := false, creditAmount := 0, reasons := "미구현 규칙",
        details := [] } :=
  c3_unimplemented_default ⟨20, "?"⟩ emptyCtx 2026 (Or.inr (by norm_num))

/-- C4 counterexample: the aggregator is not a pure function of (catalog,
context) alone — on the identical catalog and context, a run in wall-clock
year 2026 and a run in wall-clock year 2032 disagree (rule 7 flips from
eligible to ineligible), so two runs on identical input need not be
byte-identical. -/
theorem c4_counterexample :
    ((runAssessment taxRules startupCtx 2026).results.map ResultRow.is_eligible ≠
      (runAssessment taxRules startupCtx 2032).results.map ResultRow.is_eligible)
    ∧ (runAssessment taxRules startupCtx 2026).eligibleCount ≠
      (runAssessment taxRules startupCtx 2032).eligibleCount := by
  constructor <;>
  norm_num +decide [runAssessment, runStep, taxRules, assessRule, toRow,
    assessEmploymentIncrease, assessYouthEmployment, assessDisabledEmployment,
    assessCareerBreakWomen, assessSocialInsurance, assessSmeSpecialReduction,
    assessStartupSmeReduction, assessManufacturingRelocation,
    assessSocialEnterpriseReduction, assessYouthStartupReduction,
    assessProductivityFacilities, assessEnergyEnvironmentFacilities,
    assessSafetyFacilities, assessSmartFactory, assessRndExpense,
    assessDesignExpense, assessNewTechnologyExpense, assessDonation,
    assessBusinessVehicle, jsFalsy, orZero, orFalse, strOr, strTruthy,
    eqSome, smeMfg, startupCtx]

/-- C4 amended: evaluation is a pure function of the rule, the context and
the ambient wall-clock year; every dispatch path except rules 7 and 10
(which read `new Date()`) is independent of the wall-clock year, so two
runs on identical input during the same calendar year agree everywhere and
runs in different years can differ only at rules 7 and 10. -/
theorem c4_year_independent (rule : RuleDef) (ctx : AssessmentContext)
    (y₁ y₂ : ℤ) (h7 : rule.id ≠ 7) (h10 : rule.id ≠ 10) :
    assessRule rule ctx y₁ = assessRule rule ctx y₂ := by
  simp only [assessRule]
  split <;> first | rfl | omega

/-- C4 witness: rule 1 on the empty context evaluates identically in 2026
and 2032. -/
theorem c4_witness :
    assessRule ⟨1, "고용증대 세액공제"⟩ emptyCtx 2026 =
      assessRule ⟨1, "고용증대 세액공제"⟩ emptyCtx 2032 :=
  c4_year_independent ⟨1, "고용증대 세액공제"⟩ emptyCtx 2026 2032
    (by norm_num) (by norm_num)

/-- Characterization of the aggregation fold from an arbitrary accumulator:
one row is appended per catalog rule in order, the credit accumulator adds
exactly the eligible credits, and the counter counts the eligible rules. -/
lemma foldl_runStep_spec (ctx : AssessmentContext) (y : ℤ)
    (catalog : List RuleDef) :
    ∀ acc : RunOutcome,
      catalog.foldl (runStep ctx y) acc =
        { results := acc.results ++ catalog.map (fun r => toRow r (assessRule r ctx y)),
          totalCreditAmount := acc.totalCreditAmount +
            (catalog.map (fun r =>
              if (assessRule r ctx y).eligible then (assessRule r ctx y).creditAmount
              else 0)).sum,
          eligibleCount := acc.eligibleCount +
            catalog.countP (fun r => (assessRule r ctx y).eligible) } := by
  induction catalog with
  | nil => intro acc; simp
  | cons r rest ih =>
      intro acc
      rw [List.foldl_cons, ih]
      simp only [runStep]
      rcases Bool.eq_false_or_eq_true (assessRule r ctx y).eligible with h | h <;>
        simp [h, List.countP_cons, add_assoc] <;> omega

/-- The credits of the rows whose `is_eligible` flag is 1 sum to the sum of
eligible assessments' credits. -/
lemma rows_filter_sum (ctx : AssessmentContext) (y : ℤ)
    (catalog : List RuleDef) :
    (((catalog.map (fun r => toRow r (assessRule r ctx y))).filter
        (fun row => row.is_eligible == 1)).map ResultRow.credit_amount).sum =
      (catalog.map (fun r =>
        if (assessRule r ctx y).eligible then (assessRule r ctx y).creditAmount
        else 0)).sum := by
  induction catalog with
  | nil => simp
  | cons r rest ih =>
      rcases Bool.eq_false_or_eq_true (assessRule r ctx y).eligible with h | h <;>
        simpa [toRow, h] using ih

/-- The rows whose `is_eligible` flag is 1 are as many as the eligible
assessments. -/
lemma rows_filter_length (ctx : AssessmentContext) (y : ℤ)
    (catalog : List RuleDef) :
    ((catalog.map (fun r => toRow r (assessRule r ctx y))).filter
        (fun row => row.is_eligible == 1)).length =
      catalog.countP (fun r => (assessRule r ctx y).eligible) := by
  induction catalog with
  | nil => simp
  | cons r rest ih =>
      rcases Bool.eq_false_or_eq_true (assessRule r ctx y).eligible with h | h <;>
        simpa [toRow, h, List.countP_cons] using ih

/-- C2: on every evaluation context the aggregator produces one row per
catalog rule, in catalog order, with no early termination (19 rows for the
19-entry catalog), and `totalCreditAmount` is the sum of `credit_amount`
over exactly the rows with `is_eligible = 1` while `eligibleCount` is the
number of such rows. -/
theorem c2_aggregator_sums (ctx : AssessmentContext) (y : ℤ) :
    (runAssessment taxRules ctx y).results =
        taxRules.map (fun r => toRow r (assessRule r ctx y))
    ∧ (runAssessment taxRules ctx y).results.length = 19
    ∧ (runAssessment taxRules ctx y).totalCreditAmount =
        ((((runAssessment taxRules ctx y).results.filter
            (fun row => row.is_eligible == 1)).map ResultRow.credit_amount)).sum
    ∧ (runAssessment taxRules ctx y).eligibleCount =
        (((runAssessment taxRules ctx y).results.filter
            (fun row => row.is_eligible == 1))).length := by
  have h := foldl_runStep_spec ctx y taxRules
    { results := [], totalCreditAmount := 0, eligibleCount := 0 }
  have hrun : runAssessment taxRules ctx y =
      { results := taxRules.map (fun r => toRow r (assessRule r ctx y)),
        totalCreditAmount := (taxRules.map (fun r =>
          if (assessRule r ctx y).eligible then (assessRule r ctx y).creditAmount
          else 0)).sum,
        eligibleCount := taxRules.countP (fun r => (assessRule r ctx y).eligible) } := by
    rw [runAssessment, h]; simp
  refine ⟨by rw [hrun], by rw [hrun]; simp [taxRules], ?_, ?_⟩
  · rw [hrun]
    simp only
    rw [rows_filter_sum]
  · rw [hrun]
    simp only
    rw [rows_filter_length]

/-- C5: rule 5 (social insurance) rejects every company that is not
small-medium regardless of the data; a small-medium company with
`insurance_paid ≥ 1` is eligible with credit
`min(insurance_paid × 0.25, 1,000,000 × (employee_increase + youth_employees))`
(absent counts defaulting to 0); on the spec's concrete instance the credit
is 2,500,000. -/
theorem c5_social_insurance :
    (∀ (r : RuleDef) (c : Company) (d : Option EmploymentData),
        c.company_type ≠ "중소기업" → (assessSocialInsurance r c d).eligible = false)
    ∧ (∀ (r : RuleDef) (c : Company) (d : EmploymentData) (paid : ℚ),
        c.company_type = "중소기업" → d.insurance_paid = some paid → 1 ≤ paid →
        (assessSocialInsurance r c (some d)).eligible = true ∧
        (assessSocialInsurance r c (some d)).creditAmount =
          min (paid * 0.25)
            (1000000 * (orZero d.employee_increase + orZero d.youth_employees)))
    ∧ (assessSocialInsurance ⟨5, "사회보험료 세액공제"⟩ smeMfg
        (some { insurance_paid := some 10000000, employee_increase := some 2,
                youth_employees := some 1 })).creditAmount = 2500000 := by
  refine ⟨?_, ?_, ?_⟩
  · intro r c d hc
    simp [assessSocialInsurance, hc]
  · intro r c d paid hc hp h1
    have hpz : ¬ paid = 0 := by intro h; rw [h] at h1; norm_num at h1
    have hlt : ¬ paid < 1 := not_lt.mpr h1
    simp only [assessSocialInsurance, hc, jsFalsy, orZero, hp, Option.some_bind,
      Option.getD_some]
    rw [if_neg (by simp), if_neg (by simp [hpz, hlt])]
    refine ⟨rfl, ?_⟩
    simp only [min_def, orZero]
    split <;> split <;> first | rfl | linarith
  · norm_num [assessSocialInsurance, jsFalsy, orZero, smeMfg]

/-- C5 witness: the second clause applied at the spec's concrete instance,
and the first clause at a large company. -/
theorem c5_witness :
    ((assessSocialInsurance ⟨5, "사회보험료 세액공제"⟩ smeMfg
        (some { insurance_paid := some 10000000, employee_increase := some 2,
                youth_employees := some 1 })).eligible = true)
    ∧ (assessSocialInsurance ⟨5, "사회보험료 세액공제"⟩ largeSvc
        (some { insurance_paid := some 10000000 })).eligible = false := by
  constructor
  · exact (c5_social_insurance.2.1 ⟨5, "사회보험료 세액공제"⟩ smeMfg
      { insurance_paid := some 10000000, employee_increase := some 2,
        youth_employees := some 1 } 10000000 rfl rfl (by norm_num)).1
  · exact c5_social_insurance.1 ⟨5, "사회보험료 세액공제"⟩ largeSvc
      (some { insurance_paid := some 10000000 }) (by simp [largeSvc])

/-- C6 counterexample: rule 15 (`assessRndExpense`) has no minimum-expense
guard — a single general-R&D item of 100 (far below 1,000,000) already
yields an eligible outcome, contradicting the claim that every R&D-expense
evaluator rejects sums below 1,000,000. -/
theorem c6_counterexample :
    ((assessRndExpense ⟨15, "연구인력개발비 세액공제"⟩ smeMfg
        (some [{ rnd_type := some "일반연구개발비", expense_amount := some 100 }])).eligible
      = true)
    ∧ (([({ rnd_type := some "일반연구개발비", expense_amount := some 100 } : RndItem)].filter
          (fun rnd => strTruthy rnd.rnd_type &&
            ["일반연구개발비", "신성장동력연구개발비"].contains (rnd.rnd_type.getD ""))).foldl
        (fun sum rnd => sum + orZero rnd.expense_amount) 0 < 1000000) := by
  constructor
  · norm_num +decide [assessRndExpense, eqSome, strTruthy, orZero, smeMfg, List.filter]
  · norm_num +decide [strTruthy, orZero, List.filter]

/-- C6 amended: the facility evaluators reject whenever their filtered
investment total is below the rule's minimum (10,000,000 for rules 11–13,
100,000,000 for rule 14), and the single-tag R&D evaluators (rules 16–17)
reject below 1,000,000; rule 15 has no minimum threshold — any context with
at least one item matching its category filter is eligible. -/
theorem c6_threshold_guards :
    (∀ (r : RuleDef) (c : Company) (data : Option (List InvestmentItem)),
        investmentSum ["자동화설비", "정보시스템", "계측장비"] data < 10000000 →
        (assessProductivityFacilities r c data).eligible = false)
    ∧ (∀ (r : RuleDef) (c : Company) (data : Option (List InvestmentItem)),
        investmentSum ["에너지절약시설", "온실가스감축시설", "환경보전시설"] data < 10000000 →
        (assessEnergyEnvironmentFacilities r c data).eligible = false)
    ∧ (∀ (r : RuleDef) (c : Company) (data : Option (List InvestmentItem)),
        investmentSum ["화재예방설비", "안전보호장구", "작업환경개선설비"] data < 10000000 →
        (assessSafetyFacilities r c data).eligible = false)
    ∧ (∀ (r : RuleDef) (c : Company) (data : Option (List InvestmentItem)),
        smartFactorySum data < 100000000 →
        (assessSmartFactory r c data).eligible = false)
    ∧ (∀ (r : RuleDef) (c : Company) (data : Option (List RndItem)),
        rndTypeSum "디자인개발비" data < 1000000 →
        (assessDesignExpense r c data).eligible = false)
    ∧ (∀ (r : RuleDef) (c : Company) (data : Option (List RndItem)),
        rndTypeSum "신기술개발비" data < 1000000 →
        (assessNewTechnologyExpense r c data).eligible = false)
    ∧ (∀ (r : RuleDef) (c : Company) (l : List RndItem),
        l.filter (fun rnd => strTruthy rnd.rnd_type &&
            ["일반연구개발비", "신성장동력연구개발비"].contains (rnd.rnd_type.getD "")) ≠ [] →
        (assessRndExpense r c (some l)).eligible = true) := by
  refine ⟨?_, ?_, ?_, ?_, ?_, ?_, ?_⟩
  · intro r c data h
    cases data with
    | none => rfl
    | some l =>
        simp only [assessProductivityFacilities]
        split
        · rfl
        · split
          · rfl
          · split
            · rfl
            · rename_i hge
              exact absurd (by simpa [investmentSum] using h) hge
  · intro r c data h
    cases data with
    | none => rfl
    | some l =>
        simp only [assessEnergyEnvironmentFacilities]
        split
        · rfl
        · split
          · rfl
          · split
            · rfl
            · rename_i hge
              exact absurd (by simpa [investmentSum] using h) hge
  · intro r c data h
    cases data with
    | none => rfl
    | some l =>
        simp only [assessSafetyFacilities]
        split
        · rfl
        · split
          · rfl
          · split
            · rfl
            · rename_i hge
              exact absurd (by simpa [investmentSum] using h) hge
  · intro r c data h
    cases data with
    | none => rfl
    | some l =>
        simp only [assessSmartFactory]
        split
        · rfl
        · split
          · rfl
          · split
            · rfl
            · rename_i hge
              exact absurd (by simpa [smartFactorySum] using h) hge
  · intro r c data h
    cases data with
    | none => rfl
    | some l =>
        simp only [assessDesignExpense]
        split
        · rfl
        · split
          · rfl
          · split
            · rfl
            · rename_i hge
              exact absurd (by simpa [rndTypeSum] using h) hge
  · intro r c data h
    cases data with
    | none => rfl
    | some l =>
        simp only [assessNewTechnologyExpense]
        split
        · rfl
        · split
          · rfl
          · split
            · rfl
            · rename_i hge
              exact absurd (by simpa [rndTypeSum] using h) hge
  · intro r c l hne
    simp only [assessRndExpense]
    split
    · rename_i hlen
      rw [List.length_eq_zero] at hlen
      subst hlen
      simp at hne
    · split
      · rename_i hflen
        rw [List.length_eq_zero] at hflen
        exact absurd hflen hne
      · rfl

/-- C6 amended witness: rule 11 rejects a single 1,000,000 automation
investment (below the 10,000,000 minimum), and rule 15 accepts a single
matching item. -/
theorem c6_witness :
    ((assessProductivityFacilities ⟨11, "생산성향상시설 투자 세액공제"⟩ smeMfg
        (some [{ facility_type := some "자동화설비",
                 investment_amount := some 1000000 }])).eligible = false)
    ∧ ((assessRndExpense ⟨15, "연구인력개발비 세액공제"⟩ smeMfg
        (some [{ rnd_type := some "일반연구개발비",
                 expense_amount := some 100 }])).eligible = true) := by
  constructor
  · exact c6_threshold_guards.1 ⟨11, "생산성향상시설 투자 세액공제"⟩ smeMfg
      (some [{ facility_type := some "자동화설비", investment_amount := some 1000000 }])
      (by norm_num +decide [investmentSum, strTruthy, orZero, List.filter])
  · exact c6_threshold_guards.2.2.2.2.2.2 ⟨15, "연구인력개발비 세액공제"⟩ smeMfg
      [{ rnd_type := some "일반연구개발비", expense_amount := some 100 }]
      (by norm_num +decide [strTruthy, List.filter])

/-- A left fold that adds a per-element contribution computes the sum of
the mapped list. -/
lemma foldl_add_eq_sum {α : Type} (g : α → ℚ) (l : List α) :
    ∀ init : ℚ, l.foldl (fun acc a => acc + g a) init = init + (l.map g).sum := by
  induction l with
  | nil => intro init; simp
  | cons a rest ih => intro init; simp [ih, add_assoc]

/-- C7: rule 15 keeps exactly the general and new-growth-engine items, its
rate table is 25%/15%/5% for general and 30%/20%/10% for new-growth by
company size, the credit is the sum over kept items of expense × per-item
rate (mixed-category lists allowed), and the spec's concrete mixed instance
yields 4,000,000. -/
theorem c7_rnd_expense :
    (rndCreditRate (some "일반연구개발비") "중소기업" = 0.25
      ∧ rndCreditRate (some "일반연구개발비") "중견기업" = 0.15
      ∧ rndCreditRate (some "일반연구개발비") "대기업" = 0.05
      ∧ rndCreditRate (some "신성장동력연구개발비") "중소기업" = 0.30
      ∧ rndCreditRate (some "신성장동력연구개발비") "중견기업" = 0.20
      ∧ rndCreditRate (some "신성장동력연구개발비") "대기업" = 0.10)
    ∧ (∀ (r : RuleDef) (c : Company) (l : List RndItem),
        l.filter (fun rnd => strTruthy rnd.rnd_type &&
            ["일반연구개발비", "신성장동력연구개발비"].contains (rnd.rnd_type.getD "")) ≠ [] →
        (assessRndExpense r c (some l)).eligible = true ∧
        (assessRndExpense r c (some l)).creditAmount =
          ((l.filter (fun rnd => strTruthy rnd.rnd_type &&
              ["일반연구개발비", "신성장동력연구개발비"].contains (rnd.rnd_type.getD ""))).map
            (fun rnd => orZero rnd.expense_amount *
              rndCreditRate rnd.rnd_type c.company_type)).sum)
    ∧ (assessRndExpense ⟨15, "연구인력개발비 세액공제"⟩ smeMfg
        (some [{ rnd_type := some "일반연구개발비", expense_amount := some 10000000 },
               { rnd_type := some "신성장동력연구개발비",
                 expense_amount := some 5000000 }])).creditAmount = 4000000 := by
  refine ⟨by norm_num +decide [rndCreditRate, eqSome], ?_, ?_⟩
  · intro r c l hne
    simp only [assessRndExpense]
    split
    · rename_i hlen
      rw [List.length_eq_zero] at hlen
      subst hlen
      simp at hne
    · split
      · rename_i hflen
        rw [List.length_eq_zero] at hflen
        exact absurd hflen hne
      · refine ⟨rfl, ?_⟩
        simpa using
          foldl_add_eq_sum
            (fun rnd => orZero rnd.expense_amount *
              rndCreditRate rnd.rnd_type c.company_type)
            (l.filter (fun rnd => strTruthy rnd.rnd_type &&
              ["일반연구개발비", "신성장동력연구개발비"].contains (rnd.rnd_type.getD ""))) 0
  · norm_num +decide [assessRndExpense, rndCreditRate, eqSome, strTruthy, orZero,
      smeMfg, List.filter, List.foldl]

/-- C7 witness: the structural clause applied to the spec's two-item mixed
list. -/
theorem c7_witness :
    (assessRndExpense ⟨15, "연구인력개발비 세액공제"⟩ smeMfg
      (some [{ rnd_type := some "일반연구개발비", expense_amount := some 10000000 },
             { rnd_type := some "신성장동력연구개발비",
               expense_amount := some 5000000 }])).eligible = true :=
  (c7_rnd_expense.2.1 ⟨15, "연구인력개발비 세액공제"⟩ smeMfg
    [{ rnd_type := some "일반연구개발비", expense_amount := some 10000000 },
     { rnd_type := some "신성장동력연구개발비", expense_amount := some 5000000 }]
    (by norm_num +decide [strTruthy, List.filter])).1

/-- C8 counterexample: with a caller-supplied calculated tax of exactly 0
(present, not absent) and business income 1,000,000, a small-medium
manufacturing company gets creditAmount 10,000 — the evaluator used the
10%-of-income fallback, not the supplied tax, whereas the claim's reading
(caller-supplied tax 0 × 10% rate) would give 0. -/
theorem c8_counterexample :
    ((assessSmeSpecialReduction ⟨6, "중소기업 특별세액감면"⟩ smeMfg
        (some { business_income := some 1000000,
                calculated_tax := some 0 })).creditAmount = 10000)
    ∧ (10000 : ℚ) ≠ 0 * 0.10 := by
  constructor
  · norm_num +decide [assessSmeSpecialReduction, jsFalsy, orZero, smeMfg]
  · norm_num

/-- C8 amended: rule 6 is restricted to small-medium companies; for an
eligible company (business income present and nonzero) the credit is the
tax liability — the caller-supplied calculated tax when present and
nonzero, otherwise 10% of business income — times 10% when the industry is
manufacturing, mining, construction, wholesale or retail, else 5%.  (The
only change from the claim: a supplied calculated tax of 0 also triggers
the 10%-of-income fallback, because the source tests JS truthiness, not
presence.) -/
theorem c8_sme_reduction :
    (∀ (r : RuleDef) (c : Company) (d : Option OtherData),
        c.company_type ≠ "중소기업" → (assessSmeSpecialReduction r c d).eligible = false)
    ∧ (∀ (r : RuleDef) (c : Company) (d : OtherData) (income : ℚ),
        c.company_type = "중소기업" → d.business_income = some income → income ≠ 0 →
        (assessSmeSpecialReduction r c (some d)).eligible = true ∧
        (assessSmeSpecialReduction r c (some d)).creditAmount =
          (match d.calculated_tax with
            | some t => if t = 0 then income * 0.10 else t
            | none => income * 0.10) *
          (if ["제조업", "광업", "건설업", "도매업", "소매업"].contains c.industry
            then 0.10 else 0.05)) := by
  constructor
  · intro r c d hc
    simp [assessSmeSpecialReduction, hc]
  · intro r c d income hc hbi hnz
    simp only [assessSmeSpecialReduction, hc, hbi, jsFalsy, Option.some_bind,
      ne_eq, not_true_eq_false, if_false, decide_eq_true_eq]
    rw [if_neg (by simp [hnz])]
    refine ⟨rfl, ?_⟩
    cases hct : d.calculated_tax with
    | none => simp [jsFalsy, orZero]
    | some t =>
        by_cases ht : t = 0 <;> simp [jsFalsy, orZero, ht]

/-- C8 witness: the eligible clause applied at a small-medium manufacturer
with business income 1,000,000 and no supplied tax, and the size guard at a
large company. -/
theorem c8_witness :
    ((assessSmeSpecialReduction ⟨6, "중소기업 특별세액감면"⟩ smeMfg
        (some { business_income := some 1000000 })).eligible = true)
    ∧ ((assessSmeSpecialReduction ⟨6, "중소기업 특별세액감면"⟩ largeSvc
        (some { business_income := some 1000000 })).eligible = false) :=
  ⟨(c8_sme_reduction.2 ⟨6, "중소기업 특별세액감면"⟩ smeMfg
      { business_income := some 1000000 } 1000000 rfl rfl (by norm_num)).1,
   c8_sme_reduction.1 ⟨6, "중소기업 특별세액감면"⟩ largeSvc
      (some { business_income := some 1000000 }) (by simp [largeSvc])⟩

/-- C10 counterexample: a present, nonzero but negative donation amount
(-10) with business income absent yields eligible = true but
creditAmount = -3/2 ≠ 0 (the internal min(donation, 0) is -10, not 0), so
the claim's "min(donation_amount, 0) = 0 and creditAmount = 0" fails for
negative amounts. -/
theorem c10_counterexample :
    ((assessDonation ⟨18, "기부금 세액공제"⟩ smeMfg
        (some { donation_amount := some (-10) })).eligible = true)
    ∧ ((assessDonation ⟨18, "기부금 세액공제"⟩ smeMfg
        (some { donation_amount := some (-10) })).creditAmount = -3/2)
    ∧ ((-3/2 : ℚ) ≠ 0) := by
  refine ⟨?_, ?_, by norm_num⟩ <;>
    norm_num +decide [assessDonation, jsFalsy, orZero, strOr, min_def]

/-- C10 amended: whenever donation_amount is present and nonzero the
evaluator returns eligible = true, even when business_income is absent or
zero; when the donation amount is moreover positive, the deduction limit is
0, the eligible amount min(donation_amount, 0) is 0, and creditAmount = 0
(a negative donation amount instead produces a negative credit). -/
theorem c10_donation :
    (∀ (r : RuleDef) (c : Company) (d : OtherData) (amt : ℚ),
        d.donation_amount = some amt → amt ≠ 0 →
        (assessDonation r c (some d)).eligible = true)
    ∧ (∀ (r : RuleDef) (c : Company) (d : OtherData) (amt : ℚ),
        d.donation_amount = some amt → 0 < amt →
        (d.business_income = none ∨ d.business_income = some 0) →
        (assessDonation r c (some d)).eligible = true ∧
        (assessDonation r c (some d)).creditAmount = 0) := by
  constructor
  · intro r c d amt hd hnz
    simp only [assessDonation, hd, jsFalsy, Option.some_bind]
    rw [if_neg (by simp [hnz])]
  · intro r c d amt hd hpos hbi
    have hnz : amt ≠ 0 := ne_of_gt hpos
    simp only [assessDonation, hd, jsFalsy, Option.some_bind]
    rw [if_neg (by simp [hnz])]
    refine ⟨rfl, ?_⟩
    have hz : d.business_income.getD 0 = (0 : ℚ) := by
      rcases hbi with h | h <;> simp [h]
    simp only [orZero, Option.getD_some, hz, zero_mul]
    rw [min_eq_right (le_of_lt hpos), zero_mul]

/-- C10 witness: a positive donation of 500,000 with no business income is
eligible with zero credit. -/
theorem c10_witness :
    ((assessDonation ⟨18, "기부금 세액공제"⟩ smeMfg
        (some { donation_amount := some 500000 })).eligible = true)
    ∧ ((assessDonation ⟨18, "기부금 세액공제"⟩ smeMfg
        (some { donation_amount := some 500000 })).creditAmount = 0) :=
  c10_donation.2 ⟨18, "기부금 세액공제"⟩ smeMfg
    { donation_amount := some 500000 } 500000 rfl (by norm_num) (Or.inl rfl)

lemma optNonNeg_orZero {o : Option ℚ} (h : optNonNeg o = true) : 0 ≤ orZero o := by
  cases o <;> simp_all [optNonNeg, orZero]

lemma emp_bind_nonneg (d : Option EmploymentData) (f : EmploymentData → Option ℚ)
    (hf : ∀ e, empNonNeg e = true → optNonNeg (f e) = true)
    (h : (match d with | none => true | some e => empNonNeg e) = true) :
    0 ≤ orZero (d.bind f) := by
  cases d with
  | none => simp [orZero]
  | some e => exact optNonNeg_orZero (hf e h)

lemma other_bind_nonneg (d : Option OtherData) (f : OtherData → Option ℚ)
    (hf : ∀ e, otherNonNeg e = true → optNonNeg (f e) = true)
    (h : (match d with | none => true | some e => otherNonNeg e) = true) :
    0 ≤ orZero (d.bind f) := by
  cases d with
  | none => simp [orZero]
  | some e => exact optNonNeg_orZero (hf e h)

/-- A left fold adding non-negative contributions to a non-negative start
stays non-negative. -/
lemma foldl_add_nonneg {α : Type} (g : α → ℚ) (l : List α)
    (h : ∀ a ∈ l, 0 ≤ g a) :
    ∀ init : ℚ, 0 ≤ init → 0 ≤ l.foldl (fun acc a => acc + g a) init := by
  induction l with
  | nil => intro init h0; simpa using h0
  | cons a rest ih =>
      intro init h0
      rw [List.foldl_cons]
      exact ih (fun x hx => h x (List.mem_cons_of_mem a hx)) _
        (add_nonneg h0 (h a (List.mem_cons_self a rest)))

lemma rndCreditRate_nonneg (t : Option String) (ct : String) :
    0 ≤ rndCreditRate t ct := by
  simp only [rndCreditRate]
  repeat' split
  all_goals norm_num

lemma nonneg_employmentIncrease (r : RuleDef) (c : Company)
    (d : Option EmploymentData) :
    0 ≤ (assessEmploymentIncrease r c d).creditAmount := by
  simp only [assessEmploymentIncrease]
  split
  · norm_num
  · rename_i hg
    push_neg at hg
    refine mul_nonneg ?_ (le_trans zero_le_one hg.2)
    repeat' split
    all_goals norm_num

lemma nonneg_youthEmployment (r : RuleDef) (c : Company)
    (d : Option EmploymentData) :
    0 ≤ (assessYouthEmployment r c d).creditAmount := by
  simp only [assessYouthEmployment]
  split
  · norm_num
  · rename_i hg
    push_neg at hg
    refine mul_nonneg ?_ (le_trans zero_le_one hg.2)
    repeat' split
    all_goals norm_num

lemma nonneg_disabledEmployment (r : RuleDef) (c : Company)
    (d : Option EmploymentData) :
    0 ≤ (assessDisabledEmployment r c d).creditAmount := by
  simp only [assessDisabledEmployment]
  split
  · norm_num
  · rename_i hg
    push_neg at hg
    exact mul_nonneg (by norm_num) (le_trans zero_le_one hg.2)

lemma nonneg_careerBreakWomen (r : RuleDef) (c : Company)
    (d : Option EmploymentData) :
    0 ≤ (assessCareerBreakWomen r c d).creditAmount := by
  simp only [assessCareerBreakWomen]
  split
  · norm_num
  · rename_i hg
    push_neg at hg
    exact mul_nonneg (by norm_num) (le_trans zero_le_one hg.2)

lemma nonneg_socialInsurance (r : RuleDef) (c : Company)
    (d : Option EmploymentData)
    (hei : 0 ≤ orZero (d.bind fun e => e.employee_increase))
    (hye : 0 ≤ orZero (d.bind fun e => e.youth_employees)) :
    0 ≤ (assessSocialInsurance r c d).creditAmount := by
  simp only [assessSocialInsurance]
  split
  · norm_num
  · split
    · norm_num
    · rename_i hg
      push_neg at hg
      split
      · exact mul_nonneg (by norm_num) (add_nonneg hei hye)
      · exact mul_nonneg (le_trans zero_le_one hg.2) (by norm_num)

lemma nonneg_smeSpecialReduction (r : RuleDef) (c : Company)
    (d : Option OtherData)
    (hbi : 0 ≤ orZero (d.bind fun e => e.business_income))
    (hct : 0 ≤ orZero (d.bind fun e => e.calculated_tax)) :
    0 ≤ (assessSmeSpecialReduction r c d).creditAmount := by
  simp only [assessSmeSpecialReduction]
  split
  · norm_num
  · split
    · norm_num
    · refine mul_nonneg ?_ (by split <;> norm_num)
      split
      · exact mul_nonneg hbi (by norm_num)
      · exact hct

lemma nonneg_startupSmeReduction (r : RuleDef) (c : Company)
    (d : Option OtherData) (y : ℤ)
    (hct : 0 ≤ orZero (d.bind fun e => e.calculated_tax)) :
    0 ≤ (assessStartupSmeReduction r c d y).creditAmount := by
  simp only [assessStartupSmeReduction]
  split
  · norm_num
  · split
    · norm_num
    · exact mul_nonneg hct (by split <;> norm_num)

lemma nonneg_manufacturingRelocation (r : RuleDef) (c : Company)
    (d : Option OtherData)
    (hct : 0 ≤ orZero (d.bind fun e => e.calculated_tax)) :
    0 ≤ (assessManufacturingRelocation r c d).creditAmount := by
  simp only [assessManufacturingRelocation]
  split
  · norm_num
  · split
    · norm_num
    · split
      · norm_num
      · exact mul_nonneg hct (by norm_num)

lemma nonneg_socialEnterpriseReduction (r : RuleDef) (c : Company)
    (d : Option OtherData)
    (hct : 0 ≤ orZero (d.bind fun e => e.calculated_tax)) :
    0 ≤ (assessSocialEnterpriseReduction r c d).creditAmount := by
  simp only [assessSocialEnterpriseReduction]
  split
  · norm_num
  · exact mul_nonneg hct (by split <;> norm_num)

lemma nonneg_youthStartupReduction (r : RuleDef) (c : Company)
    (d : Option OtherData) (y : ℤ)
    (hct : 0 ≤ orZero (d.bind fun e => e.calculated_tax)) :
    0 ≤ (assessYouthStartupReduction r c d y).creditAmount := by
  simp only [assessYouthStartupReduction]
  split
  · norm_num
  · split
    · norm_num
    · split
      · norm_num
      · split
        · norm_num
        · exact mul_nonneg hct (by norm_num)

lemma nonneg_productivityFacilities (r : RuleDef) (c : Company)
    (data : Option (List InvestmentItem))
    (h : ∀ i ∈ data.getD [], 0 ≤ orZero i.investment_amount) :
    0 ≤ (assessProductivityFacilities r c data).creditAmount := by
  cases data with
  | none => norm_num [assessProductivityFacilities]
  | some l =>
      simp only [assessProductivityFacilities]
      split
      · norm_num
      · split
        · norm_num
        · split
          · norm_num
          · refine mul_nonneg ?_ (by split <;> [norm_num; split <;> norm_num])
            exact foldl_add_nonneg _ _
              (fun i hi => h i (List.mem_of_mem_filter hi)) 0 le_rfl

lemma nonneg_energyEnvironmentFacilities (r : RuleDef) (c : Company)
    (data : Option (List InvestmentItem))
    (h : ∀ i ∈ data.getD [], 0 ≤ orZero i.investment_amount) :
    0 ≤ (assessEnergyEnvironmentFacilities r c data).creditAmount := by
  cases data with
  | none => norm_num [assessEnergyEnvironmentFacilities]
  | some l =>
      simp only [assessEnergyEnvironmentFacilities]
      split
      · norm_num
      · split
        · norm_num
        · split
          · norm_num
          · refine mul_nonneg ?_ (by split <;> [norm_num; split <;> norm_num])
            exact foldl_add_nonneg _ _
              (fun i hi => h i (List.mem_of_mem_filter hi)) 0 le_rfl

lemma nonneg_safetyFacilities (r : RuleDef) (c : Company)
    (data : Option (List InvestmentItem))
    (h : ∀ i ∈ data.getD [], 0 ≤ orZero i.investment_amount) :
    0 ≤ (assessSafetyFacilities r c data).creditAmount := by
  cases data with
  | none => norm_num [assessSafetyFacilities]
  | some l =>
      simp only [assessSafetyFacilities]
      split
      · norm_num
      · split
        · norm_num
        · split
          · norm_num
          · refine mul_nonneg ?_ (by split <;> [norm_num; split <;> norm_num])
            exact foldl_add_nonneg _ _
              (fun i hi => h i (List.mem_of_mem_filter hi)) 0 le_rfl

lemma nonneg_smartFactory (r : RuleDef) (c : Company)
    (data : Option (List InvestmentItem))
    (h : ∀ i ∈ data.getD [], 0 ≤ orZero i.investment_amount) :
    0 ≤ (assessSmartFactory r c data).creditAmount := by
  cases data with
  | none => norm_num [assessSmartFactory]
  | some l =>
      simp only [assessSmartFactory]
      split
      · norm_num
      · split
        · norm_num
        · split
          · norm_num
          · refine mul_nonneg ?_ (by split <;> [norm_num; split <;> norm_num])
            exact foldl_add_nonneg _ _
              (fun i hi => h i (List.mem_of_mem_filter hi)) 0 le_rfl

lemma nonneg_rndExpense (r : RuleDef) (c : Company)
    (data : Option (List RndItem))
    (h : ∀ i ∈ data.getD [], 0 ≤ orZero i.expense_amount) :
    0 ≤ (assessRndExpense r c data).creditAmount := by
  cases data with
  | none => norm_num [assessRndExpense]
  | some l =>
      simp only [assessRndExpense]
      split
      · norm_num
      · split
        · norm_num
        · exact foldl_add_nonneg _ _
            (fun i hi => mul_nonneg (h i (List.mem_of_mem_filter hi))
              (rndCreditRate_nonneg _ _)) 0 le_rfl

lemma nonneg_designExpense (r : RuleDef) (c : Company)
    (data : Option (List RndItem))
    (h : ∀ i ∈ data.getD [], 0 ≤ orZero i.expense_amount) :
    0 ≤ (assessDesignExpense r c data).creditAmount := by
  cases data with
  | none => norm_num [assessDesignExpense]
  | some l =>
      simp only [assessDesignExpense]
      split
      · norm_num
      · split
        · norm_num
        · split
          · norm_num
          · refine mul_nonneg ?_ (by split <;> [norm_num; split <;> norm_num])
            exact foldl_add_nonneg _ _
              (fun i hi => h i (List.mem_of_mem_filter hi)) 0 le_rfl

lemma nonneg_newTechnologyExpense (r : RuleDef) (c : Company)
    (data : Option (List RndItem))
    (h : ∀ i ∈ data.getD [], 0 ≤ orZero i.expense_amount) :
    0 ≤ (assessNewTechnologyExpense r c data).creditAmount := by
  cases data with
  | none => norm_num [assessNewTechnologyExpense]
  | some l =>
      simp only [assessNewTechnologyExpense]
      split
      · norm_num
      · split
        · norm_num
        · split
          · norm_num
          · refine mul_nonneg ?_ (by split <;> [norm_num; split <;> norm_num])
            exact foldl_add_nonneg _ _
              (fun i hi => h i (List.mem_of_mem_filter hi)) 0 le_rfl

lemma nonneg_donation (r : RuleDef) (c : Company) (d : Option OtherData)
    (hda : 0 ≤ orZero (d.bind fun e => e.donation_amount))
    (hbi : 0 ≤ orZero (d.bind fun e => e.business_income)) :
    0 ≤ (assessDonation r c d).creditAmount := by
  simp only [assessDonation]
  split
  · norm_num
  · exact mul_nonneg (le_min hda (mul_nonneg hbi (by split <;> norm_num)))
      (by norm_num)

/-- C9 counterexample: rule 18 on a context with a negative donation amount
returns an (eligible) outcome whose creditAmount is -3/2 — negative and not
an integer — so creditAmount is not a non-negative integer for every rule
and context. -/
theorem c9_counterexample :
    ((assessRule ⟨18, "기부금 세액공제"⟩
        { company := smeMfg,
          otherData := some { donation_amount := some (-10),
                              business_income := some 100 } } 2026).creditAmount
      = -3/2)
    ∧ ¬ ((0 : ℚ) ≤ -3/2)
    ∧ (∀ n : ℤ, ((-3/2 : ℚ) ≠ (n : ℚ))) := by
  refine ⟨?_, by norm_num, ?_⟩
  · norm_num +decide [assessRule, assessDonation, jsFalsy, orZero, strOr, min_def]
  · intro n h
    have h2 : (-3 : ℚ) = 2 * (n : ℚ) := by linarith
    have h3 : (-3 : ℤ) = 2 * n := by exact_mod_cast h2
    omega

/-- C9 amended: creditAmount is a rational that need not be an integer; the
invariant that holds is non-negativity on well-signed input — whenever
every numeric field of the context is non-negative, every rule's outcome
has creditAmount ≥ 0. -/
theorem c9_credit_nonneg (rule : RuleDef) (ctx : AssessmentContext) (y : ℤ)
    (h : ctxNonNeg ctx = true) :
    0 ≤ (assessRule rule ctx y).creditAmount := by
  rw [ctxNonNeg, Bool.and_eq_true, Bool.and_eq_true, Bool.and_eq_true] at h
  obtain ⟨⟨⟨hemp, hinv⟩, hrnd⟩, hoth⟩ := h
  have hinvAll : ∀ i ∈ ctx.investmentData.getD [], 0 ≤ orZero i.investment_amount := by
    intro i hi
    exact optNonNeg_orZero (List.all_eq_true.mp hinv i hi)
  have hrndAll : ∀ i ∈ ctx.rndData.getD [], 0 ≤ orZero i.expense_amount := by
    intro i hi
    exact optNonNeg_orZero (List.all_eq_true.mp hrnd i hi)
  have hei := emp_bind_nonneg ctx.employmentData (fun e => e.employee_increase)
    (fun e he => by
      simp only [empNonNeg, Bool.and_eq_true] at he; exact he.1.1.1.1.1.2) hemp
  have hye := emp_bind_nonneg ctx.employmentData (fun e => e.youth_employees)
    (fun e he => by
      simp only [empNonNeg, Bool.and_eq_true] at he; exact he.1.1.1.1.2) hemp
  have hbi := other_bind_nonneg ctx.otherData (fun e => e.business_income)
    (fun e he => by
      simp only [otherNonNeg, Bool.and_eq_true] at he; exact he.1.1.1.1.1.1.1) hoth
  have hct := other_bind_nonneg ctx.otherData (fun e => e.calculated_tax)
    (fun e he => by
      simp only [otherNonNeg, Bool.and_eq_true] at he; exact he.1.1.1.1.1.1.2) hoth
  have hda := other_bind_nonneg ctx.otherData (fun e => e.donation_amount)
    (fun e he => by
      simp only [otherNonNeg, Bool.and_eq_true] at he; exact he.1.1.1.1.2) hoth
  simp only [assessRule]
  split
  · exact nonneg_employmentIncrease ..
  · exact nonneg_youthEmployment ..
  · exact nonneg_disabledEmployment ..
  · exact nonneg_careerBreakWomen ..
  · exact nonneg_socialInsurance _ _ _ hei hye
  · exact nonneg_smeSpecialReduction _ _ _ hbi hct
  · exact nonneg_startupSmeReduction _ _ _ _ hct
  · exact nonneg_manufacturingRelocation _ _ _ hct
  · exact nonneg_socialEnterpriseReduction _ _ _ hct
  · exact nonneg_youthStartupReduction _ _ _ _ hct
  · exact nonneg_productivityFacilities _ _ _ hinvAll
  · exact nonneg_energyEnvironmentFacilities _ _ _ hinvAll
  · exact nonneg_safetyFacilities _ _ _ hinvAll
  · exact nonneg_smartFactory _ _ _ hinvAll
  · exact nonneg_rndExpense _ _ _ hrndAll
  · exact nonneg_designExpense _ _ _ hrndAll
  · exact nonneg_newTechnologyExpense _ _ _ hrndAll
  · exact nonneg_donation _ _ _ hda hbi
  · exact le_of_eq (businessVehicle_credit_zero ..).symm
  · norm_num

/-- C9 amended witness: the startup-date context has only non-negative
numeric fields, and rule 7's credit on it is non-negative. -/
theorem c9_witness :
    ctxNonNeg startupCtx = true
    ∧ 0 ≤ (assessRule ⟨7, "창업중소기업 세액감면"⟩ startupCtx 2026).creditAmount :=
  ⟨by norm_num +decide [ctxNonNeg, startupCtx, otherNonNeg, optNonNeg, smeMfg],
   c9_credit_nonneg ⟨7, "창업중소기업 세액감면"⟩ startupCtx 2026
     (by norm_num +decide [ctxNonNeg, startupCtx, otherNonNeg, optNonNeg, smeMfg])⟩

end Tax
